import Mathlib

/-!
Shallow embedding of `packages/hotword/server.py` (Yumi hotword detection
server): the mode-switching audio pipeline, the detection cooldown, the
silence-timeout forced finalization, the WebSocket broadcast hub, the
downstream core notification, and the inbound client-message protocol.

Time values (`loop.time()`, `datetime.now()` differences) are modelled as
rationals. Python strings are Lean `String`s; `.strip()` is `pyStrip`;
Python truthiness of a string is the test `≠ ""`. The Vosk recognizer is
modelled by a generation counter `recognizerGen` that `Reset()` increments,
plus the decoder outputs carried by each frame. Parsed JSON response bodies
are represented by their source text.
-/

set_option autoImplicit false

namespace Yumi

/-- DETECTION_THRESHOLD = 0.5 (server.py line 54). -/
def DETECTION_THRESHOLD : ℚ := 1/2

/-- COOLDOWN_SECONDS = 2.0 (server.py line 56): prevent multiple triggers in
quick succession. -/
def COOLDOWN_SECONDS : ℚ := 2

/-- STT_TIMEOUT_SECONDS = 2.5 (server.py line 57): silence timeout for end of
speech. -/
def STT_TIMEOUT_SECONDS : ℚ := 5/2

/-- A connected WebSocket client: its peer identity and whether `client.send`
currently succeeds (`sendOk = false` models a transport for which `send`
raises `websockets.exceptions.ConnectionClosed`). -/
structure Client where
  id : ℕ
  sendOk : Bool
deriving DecidableEq, Repr

/-- The JSON value produced by the parsed response of the core API, as carried
in the `core_result` field of a `core_response` event: either the structured
result of `resp.json()` (represented by its body text) or the raw `resp.text`
fallback. -/
inductive CoreResult where
  | parsed (bodyText : String)
  | raw (bodyText : String)
deriving DecidableEq, Repr

/-- The broadcast events the server produces (the dict payloads handed to
`broadcast`, minus the wall-clock `timestamp` field). -/
inductive Event where
  | hotwordDetected (model : String) (score : ℚ) (action : String)
  | sttResult (text : String)
  | coreResponse (text : String) (status : ℕ) (coreResult : CoreResult)
deriving DecidableEq, Repr

/-- One fan-out pass of `broadcast` (server.py lines 140-144): iterate over the
connected set, `await client.send(payload)` on each; a client whose send raises
`ConnectionClosed` is added to the `disconnected` set instead of receiving the
payload. Returns (deliveries made, disconnected clients collected), both in
iteration order. -/
def broadcastPass (message : Event) : List Client → List (ℕ × Event) × List Client
  | [] => ([], [])
  | c :: rest =>
      let (delivered, disconnected) := broadcastPass message rest
      if c.sendOk then ((c.id, message) :: delivered, disconnected)
      else (delivered, c :: disconnected)

/-- `HotwordServer.broadcast` (server.py lines 132-148): early return on an
empty client set; otherwise serialize the message once, run the fan-out pass,
and only after the iteration completes discard the collected disconnected
clients from the connected set. Returns (remaining connected clients,
deliveries made). -/
def broadcast (clients : List Client) (message : Event) :
    List Client × List (ℕ × Event) :=
  if clients.isEmpty then (clients, [])
  else
    let (delivered, disconnected) := broadcastPass message clients
    (clients.filter (fun c => decide (c ∉ disconnected)), delivered)

/-- The server state touched by the audio pipeline: the fields of
`HotwordServer` relevant to mode switching plus the `silence_start` local of
`audio_loop`. `voskLoaded` is the truthiness of `self.vosk_model`;
`recognizerGen` counts `self.recognizer.Reset()` calls. -/
structure ServerState where
  lastDetectionTime : ℚ
  mode : String
  threshold : ℚ
  silenceStart : Option ℚ
  recognizerGen : ℕ
  voskLoaded : Bool
deriving DecidableEq, Repr

/-- The state right after `HotwordServer.__init__` (server.py lines 74-96) and
entry into `audio_loop` (which initializes its `silence_start` local to None):
`last_detection_time = 0.0`, `mode = "hotword"`. `voskLoaded` records whether
`init_model` managed to load the Vosk model. -/
def HotwordServer.initState (threshold : ℚ) (voskLoaded : Bool) : ServerState :=
  { lastDetectionTime := 0
    mode := "hotword"
    threshold := threshold
    silenceStart := none
    recognizerGen := 0
    voskLoaded := voskLoaded }

/-- The primitive steps `handle_detection` performs after the cooldown check
passes, in program order: record the detection time, broadcast the event,
switch the mode. -/
inductive DetStep where
  | record (t : ℚ)
  | broadcastEv (e : Event)
  | setMode (m : String)
deriving DecidableEq, Repr

/-- `HotwordServer.handle_detection` (server.py lines 150-174): if
`current_time - self.last_detection_time < COOLDOWN_SECONDS`, return with no
effect; otherwise set `last_detection_time = current_time`, broadcast the
`hotword_detected` event, and switch `self.mode` to `"stt"`. The returned step
list records the order in which the effects happen. -/
def handle_detection (s : ServerState) (now : ℚ) (modelName : String)
    (score : ℚ) : ServerState × List DetStep :=
  if now - s.lastDetectionTime < COOLDOWN_SECONDS then (s, [])
  else
    let s1 := { s with lastDetectionTime := now }
    let ev := Event.hotwordDetected modelName score "start_listening"
    let s2 := { s1 with mode := "stt" }
    (s2, [DetStep.record now, DetStep.broadcastEv ev, DetStep.setMode "stt"])

/-- The events among a list of detection steps. -/
def detEvents (steps : List DetStep) : List Event :=
  steps.filterMap (fun st =>
    match st with
    | DetStep.broadcastEv e => some e
    | _ => none)

/-- Interpretation of the detection steps against the connected-client set:
only the broadcast step touches it. -/
def runDetSteps (clients : List Client) : List DetStep → List Client
  | [] => clients
  | st :: rest =>
      match st with
      | DetStep.broadcastEv e => runDetSteps (broadcast clients e).1 rest
      | _ => runDetSteps clients rest

/-- `handle_detection` together with the effect of its broadcast on the
connected-client set. -/
def handleDetectionWith (s : ServerState) (clients : List Client) (now : ℚ)
    (modelName : String) (score : ℚ) : ServerState × List Client :=
  let (s1, steps) := handle_detection s now modelName score
  (s1, runDetSteps clients steps)

/-- Characters dropped from the front of a string by Python `str.strip()`:
leading whitespace. -/
def dropWS : List Char → List Char
  | [] => []
  | c :: cs => if c.isWhitespace then dropWS cs else c :: cs

/-- Python `str.strip()` with no argument: remove leading and trailing
whitespace (a structurally recursive model, so that it evaluates in the
kernel). -/
def pyStrip (s : String) : String :=
  String.mk ((dropWS (dropWS s.data).reverse).reverse)

/-- What the Vosk recognizer reports for one audio chunk:
`finalized text` models `AcceptWaveform` returning true with
`json.loads(self.recognizer.Result()).get("text", "")`;
`notFinal partText resultText` models `AcceptWaveform` returning false with
`json.loads(self.recognizer.PartialResult()).get("partial", "")` and the text
`Result()` would yield if the silence timeout forces finalization. -/
inductive DecoderResult where
  | finalized (text : String)
  | notFinal (partText : String) (resultText : String)
deriving DecidableEq, Repr

/-- One iteration of the audio loop, as seen from outside the inference
engines: the time of the iteration, the last score in
`oww_model.prediction_buffer` for each model name (iteration order), what the
recognizer reports, and whether an exception is raised while reading the
frame (`mic_stream.read` / `np.frombuffer`). -/
structure Frame where
  now : ℚ
  scores : List (String × ℚ)
  decoder : DecoderResult
  readFails : Option String
deriving DecidableEq, Repr

/-- The hotword-mode branch of `audio_loop` (server.py lines 195-203): for
each model in the prediction buffer, if its current score exceeds
`self.threshold`, `handle_detection` is invoked (scheduled on the loop). The
loop over models does not stop after a detection; the cooldown inside
`handle_detection` suppresses the later ones. -/
def processScores (now : ℚ) : ServerState → List (String × ℚ) →
    ServerState × List Event
  | s, [] => (s, [])
  | s, (name, score) :: rest =>
      if s.threshold < score then
        let (s1, steps) := handle_detection s now name score
        let (s2, evs) := processScores now s1 rest
        (s2, detEvents steps ++ evs)
      else processScores now s rest

/-- The stt-mode branch of `audio_loop` (server.py lines 204-240).
`AcceptWaveform` true: only when the stripped text is non-empty are the
`stt_result` event emitted, the mode switched back to `"hotword"`, the
recognizer reset, and `silence_start` cleared. `AcceptWaveform` false: an
empty partial starts or extends the silence window; once it exceeds
`STT_TIMEOUT_SECONDS`, finalization is forced — the event is emitted only for
non-empty stripped text, but the mode switch, recognizer reset and
`silence_start = None` happen either way; a non-empty partial clears
`silence_start`. -/
def processStt (s : ServerState) (f : Frame) : ServerState × List Event :=
  match f.decoder with
  | DecoderResult.finalized rawText =>
      let text := pyStrip rawText
      if text ≠ "" then
        ({ s with mode := "hotword"
                  recognizerGen := s.recognizerGen + 1
                  silenceStart := none },
         [Event.sttResult text])
      else (s, [])
  | DecoderResult.notFinal partText resultText =>
      if partText = "" then
        match s.silenceStart with
        | none => ({ s with silenceStart := some f.now }, [])
        | some t0 =>
            if STT_TIMEOUT_SECONDS < f.now - t0 then
              let text := pyStrip resultText
              ({ s with mode := "hotword"
                        recognizerGen := s.recognizerGen + 1
                        silenceStart := none },
               if text ≠ "" then [Event.sttResult text] else [])
            else (s, [])
      else ({ s with silenceStart := none }, [])

/-- The body of one `audio_loop` iteration inside the `try` (server.py lines
185-240): read the frame (may raise), then branch on
`self.mode == "hotword"` / `self.mode == "stt" and self.vosk_model`. -/
def processFrame (s : ServerState) (f : Frame) :
    Except String (ServerState × List Event) :=
  match f.readFails with
  | some msg => Except.error msg
  | none =>
      if s.mode = "hotword" then Except.ok (processScores f.now s f.scores)
      else if s.mode = "stt" ∧ s.voskLoaded = true then
        Except.ok (processStt s f)
      else Except.ok (s, [])

/-- One `audio_loop` iteration with its `except Exception` boundary (server.py
lines 241-243): any error raised during per-frame processing is caught and
logged, and the loop continues with the state it had. -/
def audioLoopStep (s : ServerState) (f : Frame) : ServerState × List Event :=
  match processFrame s f with
  | Except.ok r => r
  | Except.error _ => (s, [])

/-- `audio_loop` over a finite trace of frames (the `while self.running` loop,
with the trace length standing for how long `running` stays true): the states
are threaded through `audioLoopStep` and all emitted events are concatenated
in order. -/
def audio_loop (s : ServerState) : List Frame → ServerState × List Event
  | [] => (s, [])
  | f :: fs =>
      let (s1, evs) := audioLoopStep s f
      let (s2, evs2) := audio_loop s1 fs
      (s2, evs ++ evs2)

/-- The outcome of `requests.post(CORE_API_URL, ...)` inside
`handle_stt_result`: either a response (status code, whether the
`content-type` header starts with `application/json`, whether `resp.json()`
succeeds, and the body text) or a raised exception (timeout, connection
error). -/
inductive CoreOutcome where
  | ok (status : ℕ) (contentTypeJson : Bool) (jsonOk : Bool) (bodyText : String)
  | exc (msg : String)
deriving DecidableEq, Repr

/-- The `core_result` computation of `handle_stt_result` (server.py lines
262-265): parse the body as JSON when the content type declares JSON; if
`resp.json()` raises, the inner `except` falls back to `resp.text`; a
non-JSON content type uses `resp.text` directly. -/
def coreResultOf (contentTypeJson jsonOk : Bool) (bodyText : String) :
    CoreResult :=
  if contentTypeJson then
    if jsonOk then CoreResult.parsed bodyText else CoreResult.raw bodyText
  else CoreResult.raw bodyText

/-- `HotwordServer.handle_stt_result` (server.py lines 245-274): broadcast the
`stt_result` event, then POST the text to the core inside a `try`; if the POST
raises (timeout, connection error) the exception is caught and logged and no
further event is emitted; on a response, a `core_response` event carrying the
status and the parsed-or-raw body is broadcast. Returns the remaining client
set and the events broadcast, in order. -/
def handle_stt_result (clients : List Client) (text : String)
    (outcome : CoreOutcome) : List Client × List Event :=
  let sttEv := Event.sttResult text
  let (c1, _) := broadcast clients sttEv
  match outcome with
  | CoreOutcome.exc _ => (c1, [sttEv])
  | CoreOutcome.ok status ct jok body =>
      let coreEv := Event.coreResponse text status (coreResultOf ct jok body)
      let (c2, _) := broadcast c1 coreEv
      (c2, [sttEv, coreEv])

/-- JSON values, as produced by `json.loads` on an inbound client message. -/
inductive JsonVal where
  | obj (fields : List (String × JsonVal))
  | arr (elems : List JsonVal)
  | str (s : String)
  | num (n : ℤ)
  | jbool (b : Bool)
  | null

/-- Whether a JSON value is an object (a Python dict after `json.loads`),
i.e. has a `.get` method. -/
def JsonVal.isObj : JsonVal → Bool
  | JsonVal.obj _ => true
  | _ => false

/-- Replies `handle_client` sends for recognized control messages. -/
inductive Reply where
  | pong
  | statusReply (listening : Bool) (clientCount : ℕ) (models : List String)
deriving DecidableEq, Repr

/-- Outcome of handling a single inbound message: ignored silently, answered
with a reply, or an exception escaping the per-message `try` (which aborts the
handler and disconnects the client). -/
inductive MsgOutcome where
  | silent
  | reply (r : Reply)
  | raised (err : String)
deriving DecidableEq, Repr

/-- Field lookup in a JSON object (`data.get(key, default)`); the objects
`json.loads` produces have distinct keys. -/
def lookupField (key : String) : List (String × JsonVal) → Option JsonVal
  | [] => none
  | (k, v) :: rest => if k = key then some v else lookupField key rest

/-- The per-message body of `handle_client` (server.py lines 293-312). A
message that fails JSON decoding (`msg = none`) hits
`except json.JSONDecodeError: pass`. A JSON object is queried with
`data.get("type", "")` and answered for `"ping"` and `"status"`, else ignored.
A JSON value that is not an object has no `.get` method: the `AttributeError`
is not caught by the `except json.JSONDecodeError` clause and escapes. -/
def handle_message (running : Bool) (clientCount : ℕ) (models : List String)
    (msg : Option JsonVal) : MsgOutcome :=
  match msg with
  | none => MsgOutcome.silent
  | some (JsonVal.obj fields) =>
      match (lookupField "type" fields).getD (JsonVal.str "") with
      | JsonVal.str "ping" => MsgOutcome.reply Reply.pong
      | JsonVal.str "status" =>
          MsgOutcome.reply (Reply.statusReply running clientCount models)
      | _ => MsgOutcome.silent
  | some _ => MsgOutcome.raised "AttributeError"

/-- The `async for message in websocket` loop of `handle_client` (server.py
lines 292-320) over the messages a client sends (`none` = a message that is
not valid JSON). Returns the replies sent and whether the handler was aborted
by an escaped exception — in which case the `finally` removes the client and
the connection is closed, i.e. the client is disconnected by the fault. -/
def handle_client_msgs (running : Bool) (clientCount : ℕ)
    (models : List String) : List (Option JsonVal) → List Reply × Bool
  | [] => ([], false)
  | m :: ms =>
      match handle_message running clientCount models m with
      | MsgOutcome.silent => handle_client_msgs running clientCount models ms
      | MsgOutcome.reply r =>
          let (rs, aborted) := handle_client_msgs running clientCount models ms
          (r :: rs, aborted)
      | MsgOutcome.raised _ => ([], true)

/-- What `init_model` needs from the environment: whether constructing the
OpenWakeWord `Model` succeeds and whether constructing `VoskModel` succeeds. -/
structure ModelLoadEnv where
  owwLoadOk : Bool
  voskLoadOk : Bool
deriving DecidableEq, Repr

/-- Result of `init_model`: `fatal` when an exception propagates out of it
(aborting `start` before the pipeline runs), `started voskLoaded` when it
returns, with `voskLoaded` the truthiness of `self.vosk_model` afterwards. -/
inductive InitModelResult where
  | fatal (msg : String)
  | started (voskLoaded : Bool)
deriving DecidableEq, Repr

/-- Whether an `init_model` outcome is fatal to the process. -/
def InitModelResult.isFatal : InitModelResult → Bool
  | InitModelResult.fatal _ => true
  | InitModelResult.started _ => false

/-- `HotwordServer.init_model` (server.py lines 110-130): the OpenWakeWord
`Model(...)` construction is not guarded, so its failure propagates out of
`init_model` (and out of `start`, killing the process before the pipeline
starts); the Vosk load is wrapped in `try/except Exception`, which logs and
sets `self.vosk_model = None`, and `init_model` returns normally. -/
def init_model (env : ModelLoadEnv) : InitModelResult :=
  if env.owwLoadOk then
    if env.voskLoadOk then InitModelResult.started true
    else InitModelResult.started false
  else InitModelResult.fatal "wakeword model load failed"

/-! ### Helper lemmas -/

/-- The fan-out pass delivers to exactly the clients whose send succeeds, in
order, and collects exactly the clients whose send fails. -/
theorem broadcastPass_eq (message : Event) (clients : List Client) :
    broadcastPass message clients =
      ((clients.filter (fun c => c.sendOk)).map (fun c => (c.id, message)),
       clients.filter (fun c => !c.sendOk)) := by
  induction clients with
  | nil => rfl
  | cons c rest ih =>
      cases hc : c.sendOk <;>
        simp [broadcastPass, ih, List.filter_cons, hc]

/-- Closed form of `broadcast`: the surviving set is the healthy clients and
the deliveries are exactly the payload to each healthy client. -/
theorem broadcast_eq (clients : List Client) (message : Event) :
    broadcast clients message =
      (clients.filter (fun c => c.sendOk),
       (clients.filter (fun c => c.sendOk)).map (fun c => (c.id, message))) := by
  unfold broadcast
  by_cases h : clients.isEmpty
  · rw [if_pos h]
    rw [List.isEmpty_iff] at h
    subst h
    rfl
  · rw [if_neg h, broadcastPass_eq]
    refine Prod.ext ?_ rfl
    simp only
    refine List.filter_congr ?_
    intro c hc
    cases hcs : c.sendOk <;>
      simp [List.mem_filter, hc, hcs]

/-- When the cooldown has elapsed, `handle_detection` records the time,
broadcasts, and switches the mode, in that order. -/
theorem handle_detection_accept (s : ServerState) (now : ℚ) (m : String)
    (sc : ℚ) (h : COOLDOWN_SECONDS ≤ now - s.lastDetectionTime) :
    handle_detection s now m sc =
      ({ s with lastDetectionTime := now, mode := "stt" },
       [DetStep.record now,
        DetStep.broadcastEv (Event.hotwordDetected m sc "start_listening"),
        DetStep.setMode "stt"]) := by
  unfold handle_detection
  rw [if_neg (not_lt.mpr h)]

/-- Within the cooldown window, `handle_detection` is a no-op. -/
theorem handle_detection_reject {s : ServerState} {now : ℚ} {m : String}
    {sc : ℚ} (h : now - s.lastDetectionTime < COOLDOWN_SECONDS) :
    handle_detection s now m sc = (s, []) := by
  unfold handle_detection
  rw [if_pos h]

/-- `handle_detection` either emits no event or exactly the
`hotword_detected` event. -/
theorem detEvents_handle_detection (s : ServerState) (now : ℚ) (m : String)
    (sc : ℚ) :
    detEvents (handle_detection s now m sc).2 = [] ∨
    detEvents (handle_detection s now m sc).2 =
      [Event.hotwordDetected m sc "start_listening"] := by
  unfold handle_detection
  split
  · left; rfl
  · right; rfl

/-- `handle_detection` leaves the mode alone or sets it to `"stt"`. -/
theorem handle_detection_mode (s : ServerState) (now : ℚ) (m : String)
    (sc : ℚ) :
    (handle_detection s now m sc).1.mode = s.mode ∨
    (handle_detection s now m sc).1.mode = "stt" := by
  unfold handle_detection
  split
  · left; rfl
  · right; rfl

/-- The hotword-mode branch leaves the mode alone or sets it to `"stt"`. -/
theorem processScores_mode (now : ℚ) (l : List (String × ℚ)) :
    ∀ s : ServerState,
      (processScores now s l).1.mode = s.mode ∨
      (processScores now s l).1.mode = "stt" := by
  induction l with
  | nil => intro s; left; rfl
  | cons p rest ih =>
      intro s
      obtain ⟨name, score⟩ := p
      by_cases hth : s.threshold < score
      · rcases heq : handle_detection s now name score with ⟨s1, steps⟩
        rcases hp : processScores now s1 rest with ⟨s2, evs⟩
        have hmode := handle_detection_mode s now name score
        rw [heq] at hmode
        have hrest := ih s1
        rw [hp] at hrest
        simp only [processScores, if_pos hth, heq, hp]
        simp only at hmode hrest ⊢
        rcases hrest with h | h
        · rcases hmode with h2 | h2
          · left; rw [h, h2]
          · right; rw [h, h2]
        · right; exact h
      · simp only [processScores, if_neg hth]
        exact ih s

/-- Every event the hotword-mode branch emits is a `hotword_detected`
event. -/
theorem processScores_events (now : ℚ) (l : List (String × ℚ)) :
    ∀ s : ServerState, ∀ e ∈ (processScores now s l).2,
      ∃ m sc, e = Event.hotwordDetected m sc "start_listening" := by
  induction l with
  | nil => intro s e he; simp [processScores] at he
  | cons p rest ih =>
      intro s e he
      obtain ⟨name, score⟩ := p
      by_cases hth : s.threshold < score
      · rcases heq : handle_detection s now name score with ⟨s1, steps⟩
        rcases hp : processScores now s1 rest with ⟨s2, evs⟩
        simp only [processScores, if_pos hth, heq, hp] at he
        rw [List.mem_append] at he
        rcases he with he | he
        · have hd := detEvents_handle_detection s now name score
          rw [heq] at hd
          simp only at hd
          rcases hd with hd | hd <;> rw [hd] at he
          · simp at he
          · rw [List.mem_singleton] at he
            exact ⟨name, score, he⟩
        · have := ih s1 e
          rw [hp] at this
          exact this he
      · simp only [processScores, if_neg hth] at he
        exact ih s e he

/-- The stt-mode branch leaves the mode alone or reverts it to
`"hotword"`. -/
theorem processStt_mode (s : ServerState) (f : Frame) :
    (processStt s f).1.mode = s.mode ∨ (processStt s f).1.mode = "hotword" := by
  rcases hd : f.decoder with rawText | ⟨pt, rt⟩
  · simp only [processStt, hd]
    split
    · right; rfl
    · left; rfl
  · simp only [processStt, hd]
    split
    · cases hs : s.silenceStart with
      | none => simp [hs]
      | some t0 =>
          simp only [hs]
          split
          · right; rfl
          · left; rfl
    · left; rfl

/-- In hotword mode, one audio-loop iteration never emits an `stt_result`
event. -/
theorem audioLoopStep_hotword_no_stt (s : ServerState) (f : Frame) (t : String)
    (hm : s.mode = "hotword") : Event.sttResult t ∉ (audioLoopStep s f).2 := by
  intro hmem
  cases hr : f.readFails with
  | some msg => simp [audioLoopStep, processFrame, hr] at hmem
  | none =>
      simp only [audioLoopStep, processFrame, hr, hm, if_true, String.reduceEq,
        reduceIte] at hmem
      obtain ⟨m, sc, he⟩ := processScores_events f.now f.scores s _ hmem
      simp at he

/-- One audio-loop iteration keeps the mode within
`{"hotword", "stt"}`. -/
theorem audioLoopStep_mode (s : ServerState) (f : Frame)
    (h : s.mode = "hotword" ∨ s.mode = "stt") :
    (audioLoopStep s f).1.mode = "hotword" ∨
    (audioLoopStep s f).1.mode = "stt" := by
  cases hr : f.readFails with
  | some msg =>
      simpa [audioLoopStep, processFrame, hr] using h
  | none =>
      rcases h with hm | hm
      · simp only [audioLoopStep, processFrame, hr, hm, reduceIte]
        rcases processScores_mode f.now f.scores s with h2 | h2
        · left; rw [h2, hm]
        · right; exact h2
      · by_cases hv : s.voskLoaded = true
        · simp only [audioLoopStep, processFrame, hr, hm, hv, String.reduceEq,
            reduceIte, and_self, true_and]
          rcases processStt_mode s f with h2 | h2
          · right; rw [h2, hm]
          · left; exact h2
        · simp only [audioLoopStep, processFrame, hr, hm, hv, String.reduceEq,
            reduceIte, and_false, false_and]
          right; exact hm

/-- The audio loop keeps the mode within `{"hotword", "stt"}` across any
frame trace. -/
theorem audio_loop_mode (fs : List Frame) :
    ∀ s : ServerState, s.mode = "hotword" ∨ s.mode = "stt" →
      (audio_loop s fs).1.mode = "hotword" ∨
      (audio_loop s fs).1.mode = "stt" := by
  induction fs with
  | nil => intro s h; exact h
  | cons f rest ih =>
      intro s h
      rcases hstep : audioLoopStep s f with ⟨s1, evs⟩
      rcases hl : audio_loop s1 rest with ⟨s2, evs2⟩
      have h1 := audioLoopStep_mode s f h
      rw [hstep] at h1
      have h2 := ih s1 h1
      rw [hl] at h2
      simp only [audio_loop, hstep, hl]
      exact h2

/-! ### Claim theorems -/

/-- C1: `handle_detection` emits and records iff
`now - last_detection_time ≥ COOLDOWN_SECONDS` and is a pure no-op otherwise;
consequently two above-threshold detections handled within
`COOLDOWN_SECONDS` of each other produce at most one event, and exactly one
iff the later of the two clears the cooldown against the previously recorded
detection time. -/
theorem handle_detection_cooldown_debounce (s : ServerState) (now t1 t2 : ℚ)
    (m m1 m2 : String) (sc sc1 sc2 : ℚ) (h12 : t1 ≤ t2)
    (hwin : t2 - t1 < COOLDOWN_SECONDS) :
    (COOLDOWN_SECONDS ≤ now - s.lastDetectionTime →
      handle_detection s now m sc =
        ({ s with lastDetectionTime := now, mode := "stt" },
         [DetStep.record now,
          DetStep.broadcastEv (Event.hotwordDetected m sc "start_listening"),
          DetStep.setMode "stt"])) ∧
    (now - s.lastDetectionTime < COOLDOWN_SECONDS →
      handle_detection s now m sc = (s, [])) ∧
    ((detEvents (handle_detection s t1 m1 sc1).2).length
        + (detEvents (handle_detection (handle_detection s t1 m1 sc1).1 t2 m2 sc2).2).length
      ≤ 1) ∧
    ((detEvents (handle_detection s t1 m1 sc1).2).length
        + (detEvents (handle_detection (handle_detection s t1 m1 sc1).1 t2 m2 sc2).2).length = 1
      ↔ COOLDOWN_SECONDS ≤ t2 - s.lastDetectionTime) := by
  refine ⟨handle_detection_accept s now m sc, fun h => handle_detection_reject h, ?_⟩
  by_cases h1 : t1 - s.lastDetectionTime < COOLDOWN_SECONDS
  · rw [handle_detection_reject h1]
    by_cases h2 : t2 - s.lastDetectionTime < COOLDOWN_SECONDS
    · rw [handle_detection_reject h2]
      simp only [detEvents, List.filterMap_nil, List.length_nil, Nat.add_zero]
      exact ⟨by omega, by constructor <;> intro h <;> [omega; exact absurd h (not_le.mpr h2)]⟩
    · rw [handle_detection_accept s t2 m2 sc2 (not_lt.mp h2)]
      simp only [detEvents, List.filterMap_nil, List.length_nil, List.filterMap_cons,
        List.length_cons, Nat.zero_add]
      exact ⟨by simp, by simp [not_lt.mp h2]⟩
  · rw [handle_detection_accept s t1 m1 sc1 (not_lt.mp h1)]
    rw [handle_detection_reject (show t2 - ({ s with lastDetectionTime := t1, mode := "stt" } : ServerState).lastDetectionTime < COOLDOWN_SECONDS from hwin)]
    simp only [detEvents, List.filterMap_cons, List.filterMap_nil, List.length_cons,
      List.length_nil, List.filterMap_nil]
    refine ⟨by simp, ?_⟩
    have : COOLDOWN_SECONDS ≤ t2 - s.lastDetectionTime := by
      have := not_lt.mp h1
      linarith
    simp [this]

/-- Witness for C1: from the freshly-initialized server, detections at t=5
and t=6 (one second apart, cooldown 2 s) produce exactly one event. -/
theorem handle_detection_cooldown_debounce_witness :
    ((5 : ℚ) ≤ 6 ∧ (6 : ℚ) - 5 < COOLDOWN_SECONDS) ∧
    (detEvents (handle_detection (HotwordServer.initState (1/2) true) 5 "m1" (3/5)).2).length
      + (detEvents (handle_detection
          (handle_detection (HotwordServer.initState (1/2) true) 5 "m1" (3/5)).1
          6 "m2" (7/10)).2).length = 1 :=
  ⟨⟨by norm_num, by norm_num [COOLDOWN_SECONDS]⟩,
   ((handle_detection_cooldown_debounce (HotwordServer.initState (1/2) true)
      0 5 6 "x" "m1" "m2" 0 (3/5) (7/10) (by norm_num)
      (by norm_num [COOLDOWN_SECONDS])).2.2.2).mpr
     (by norm_num [HotwordServer.initState, COOLDOWN_SECONDS])⟩

/-- C10: once the cooldown check passes, `handle_detection` updates
`last_detection_time` before broadcasting and before the mode switch (the
returned step order), and the accepted detection consumes the cooldown window
for every subscriber set — including an empty one or one in which every
delivery fails. -/
theorem handle_detection_records_cooldown_first (s : ServerState)
    (clients : List Client) (now : ℚ) (m : String) (sc : ℚ)
    (h : COOLDOWN_SECONDS ≤ now - s.lastDetectionTime) :
    (handle_detection s now m sc).2 =
      [DetStep.record now,
       DetStep.broadcastEv (Event.hotwordDetected m sc "start_listening"),
       DetStep.setMode "stt"] ∧
    (handleDetectionWith s clients now m sc).1.lastDetectionTime = now ∧
    (handleDetectionWith s clients now m sc).1.mode = "stt" := by
  have ha := handle_detection_accept s now m sc h
  refine ⟨by rw [ha], ?_, ?_⟩ <;> simp [handleDetectionWith, ha]

/-- Witness for C10: an accepted detection against a single all-failing
subscriber still records the detection time. -/
theorem handle_detection_records_cooldown_first_witness :
    COOLDOWN_SECONDS ≤ 7 - (HotwordServer.initState (1/2) true).lastDetectionTime ∧
    (handleDetectionWith (HotwordServer.initState (1/2) true) [⟨1, false⟩]
        7 "m" (9/10)).1.lastDetectionTime = 7 :=
  ⟨by norm_num [HotwordServer.initState, COOLDOWN_SECONDS],
   (handle_detection_records_cooldown_first (HotwordServer.initState (1/2) true)
      [⟨1, false⟩] 7 "m" (9/10)
      (by norm_num [HotwordServer.initState, COOLDOWN_SECONDS])).2.1⟩

/-- C3: `broadcast` attempts delivery to every currently-registered
subscriber, collects each subscriber whose send fails into a separate set
during the fan-out pass, and removes the failed subscribers only after the
iteration completes; after the call every failed subscriber is absent from
the set and every healthy subscriber received the payload. -/
theorem broadcast_delivers_and_prunes (clients : List Client) (message : Event) :
    (broadcastPass message clients).2 = clients.filter (fun c => !c.sendOk) ∧
    (broadcast clients message).1 = clients.filter (fun c => c.sendOk) ∧
    (broadcast clients message).2 =
      (clients.filter (fun c => c.sendOk)).map (fun c => (c.id, message)) ∧
    (∀ c ∈ clients, c.sendOk = false → c ∉ (broadcast clients message).1) ∧
    (∀ c ∈ clients, c.sendOk = true → (c.id, message) ∈ (broadcast clients message).2) := by
  refine ⟨by rw [broadcastPass_eq], by rw [broadcast_eq], by rw [broadcast_eq], ?_, ?_⟩
  · intro c hc hfail
    rw [broadcast_eq]
    simp [List.mem_filter, hfail]
  · intro c hc hok
    rw [broadcast_eq]
    refine List.mem_map.mpr ⟨c, ?_, rfl⟩
    exact List.mem_filter.mpr ⟨hc, hok⟩

/-- Witness for C3 at a concrete subscriber set (three subscribers, one with
a broken transport): the broken one is pruned and a healthy one is served. -/
theorem broadcast_delivers_and_prunes_witness :
    ((⟨2, false⟩ : Client) ∉
      (broadcast [⟨1, true⟩, ⟨2, false⟩, ⟨3, true⟩] (Event.sttResult "hi")).1) ∧
    ((1, Event.sttResult "hi") ∈
      (broadcast [⟨1, true⟩, ⟨2, false⟩, ⟨3, true⟩] (Event.sttResult "hi")).2) :=
  ⟨(broadcast_delivers_and_prunes [⟨1, true⟩, ⟨2, false⟩, ⟨3, true⟩]
      (Event.sttResult "hi")).2.2.2.1 ⟨2, false⟩ (by decide) rfl,
   (broadcast_delivers_and_prunes [⟨1, true⟩, ⟨2, false⟩, ⟨3, true⟩]
      (Event.sttResult "hi")).2.2.2.2 ⟨1, true⟩ (by decide) rfl⟩

/-- C7: the mode is always one of `"hotword"` (Detecting) or `"stt"`
(Transcribing), the initial mode is `"hotword"`, and an `stt_result` event is
never produced by an iteration that starts in `"hotword"` mode. -/
theorem mode_invariant (threshold : ℚ) (voskLoaded : Bool) :
    (HotwordServer.initState threshold voskLoaded).mode = "hotword" ∧
    (∀ s f, s.mode = "hotword" ∨ s.mode = "stt" →
      (audioLoopStep s f).1.mode = "hotword" ∨
      (audioLoopStep s f).1.mode = "stt") ∧
    (∀ fs, (audio_loop (HotwordServer.initState threshold voskLoaded) fs).1.mode = "hotword" ∨
      (audio_loop (HotwordServer.initState threshold voskLoaded) fs).1.mode = "stt") ∧
    (∀ s f t, s.mode = "hotword" →
      Event.sttResult t ∉ (audioLoopStep s f).2) :=
  ⟨rfl, fun s f h => audioLoopStep_mode s f h,
   fun fs => audio_loop_mode fs _ (Or.inl rfl),
   fun s f t hm => audioLoopStep_hotword_no_stt s f t hm⟩

/-- Witness for C7: from the initial state, a frame whose score is above
threshold and whose decoder has finalized text still produces no `stt_result`
event, and the mode stays in the two-valued set. -/
theorem mode_invariant_witness :
    (HotwordServer.initState (1/2) true).mode = "hotword" ∧
    Event.sttResult "hi" ∉
      (audioLoopStep (HotwordServer.initState (1/2) true)
        ⟨1, [("m", 9/10)], DecoderResult.finalized "hi", none⟩).2 ∧
    ((audioLoopStep (HotwordServer.initState (1/2) true)
        ⟨1, [("m", 9/10)], DecoderResult.finalized "hi", none⟩).1.mode = "hotword" ∨
     (audioLoopStep (HotwordServer.initState (1/2) true)
        ⟨1, [("m", 9/10)], DecoderResult.finalized "hi", none⟩).1.mode = "stt") :=
  ⟨(mode_invariant (1/2) true).1,
   (mode_invariant (1/2) true).2.2.2 (HotwordServer.initState (1/2) true)
     ⟨1, [("m", 9/10)], DecoderResult.finalized "hi", none⟩ "hi" rfl,
   (mode_invariant (1/2) true).2.1 (HotwordServer.initState (1/2) true)
     ⟨1, [("m", 9/10)], DecoderResult.finalized "hi", none⟩ (Or.inl rfl)⟩

/-- C8: an error raised during per-frame processing is caught at the loop
boundary — the iteration contributes no events and leaves the state as it
was — and the loop continues with the next frame instead of terminating. -/
theorem audio_loop_catches_frame_errors (s : ServerState) (f : Frame)
    (fs : List Frame) (msg : String)
    (h : processFrame s f = Except.error msg) :
    audioLoopStep s f = (s, []) ∧
    audio_loop s (f :: fs) = audio_loop s fs := by
  have h1 : audioLoopStep s f = (s, []) := by
    unfold audioLoopStep
    rw [h]
  refine ⟨h1, ?_⟩
  rcases hl : audio_loop s fs with ⟨s2, evs2⟩
  simp only [audio_loop, h1, hl, List.nil_append]

/-- Witness for C8: a frame whose read raises is caught and the loop goes
on. -/
theorem audio_loop_catches_frame_errors_witness :
    processFrame (HotwordServer.initState (1/2) true)
        ⟨1, [], DecoderResult.finalized "x", some "mic overflow"⟩ =
      Except.error "mic overflow" ∧
    audioLoopStep (HotwordServer.initState (1/2) true)
        ⟨1, [], DecoderResult.finalized "x", some "mic overflow"⟩ =
      (HotwordServer.initState (1/2) true, []) :=
  ⟨rfl,
   (audio_loop_catches_frame_errors (HotwordServer.initState (1/2) true)
      ⟨1, [], DecoderResult.finalized "x", some "mic overflow"⟩ [] "mic overflow"
      rfl).1⟩

/-- C2: in `"stt"` mode, when the decoder has reported no partial result and
the accumulated silence exceeds `STT_TIMEOUT_SECONDS`, the iteration forces
finalization: an `stt_result` event is emitted exactly when the accumulated
text is non-empty, and in both cases the mode reverts to `"hotword"`, the
recognizer is reset and the silence marker is cleared; because the mode has
reverted, no later iteration emits an `stt_result` until a new detection. -/
theorem stt_silence_timeout_forces_finalization (s : ServerState) (f : Frame)
    (t0 : ℚ) (resultText : String) (hm : s.mode = "stt")
    (hv : s.voskLoaded = true) (hr : f.readFails = none)
    (hd : f.decoder = DecoderResult.notFinal "" resultText)
    (hs : s.silenceStart = some t0) (ht : STT_TIMEOUT_SECONDS < f.now - t0) :
    audioLoopStep s f =
      ({ s with mode := "hotword", recognizerGen := s.recognizerGen + 1,
                silenceStart := none },
       if pyStrip resultText ≠ "" then [Event.sttResult (pyStrip resultText)] else []) ∧
    (∀ f2 t, Event.sttResult t ∉
      (audioLoopStep { s with mode := "hotword",
                              recognizerGen := s.recognizerGen + 1,
                              silenceStart := none } f2).2) := by
  constructor
  · simp only [audioLoopStep, processFrame, processStt, hr, hm, hv, hd, hs,
      String.reduceEq, reduceIte, and_self, if_pos ht]
  · intro f2 t
    exact audioLoopStep_hotword_no_stt _ f2 t rfl

/-- Witness for C2: silence since t=0 observed at t=3 (timeout 2.5 s) with
accumulated text "hello world" finalizes once and reverts the mode. -/
theorem stt_silence_timeout_forces_finalization_witness :
    audioLoopStep ⟨0, "stt", 1/2, some 0, 0, true⟩
        ⟨3, [], DecoderResult.notFinal "" "hello world", none⟩ =
      (⟨0, "hotword", 1/2, none, 1, true⟩,
       if (pyStrip "hello world" ≠ "") then [Event.sttResult (pyStrip "hello world")]
       else []) ∧
    (∀ f2 t, Event.sttResult t ∉
      (audioLoopStep (⟨0, "hotword", 1/2, none, 1, true⟩ : ServerState) f2).2) :=
  stt_silence_timeout_forces_finalization ⟨0, "stt", 1/2, some 0, 0, true⟩
    ⟨3, [], DecoderResult.notFinal "" "hello world", none⟩ 0 "hello world"
    rfl rfl rfl rfl rfl (by norm_num [STT_TIMEOUT_SECONDS])

/-- C9: in `"stt"` mode, when `AcceptWaveform` finalizes with text that strips
to empty (outside the silence-timeout path), nothing happens: no event, the
mode stays `"stt"`, and neither the recognizer nor the silence marker is
reset. -/
theorem stt_empty_finalization_no_transition (s : ServerState) (f : Frame)
    (rawText : String) (hm : s.mode = "stt") (hv : s.voskLoaded = true)
    (hr : f.readFails = none)
    (hd : f.decoder = DecoderResult.finalized rawText)
    (he : pyStrip rawText = "") :
    audioLoopStep s f = (s, []) := by
  simp [audioLoopStep, processFrame, processStt, hr, hm, hv, hd, he]

/-- Witness for C9: an all-whitespace finalized utterance leaves the state
(mode `"stt"`, silence marker, recognizer generation) untouched and emits
nothing. -/
theorem stt_empty_finalization_no_transition_witness :
    (⟨0, "stt", 1/2, some 1, 0, true⟩ : ServerState).mode = "stt" ∧
    audioLoopStep ⟨0, "stt", 1/2, some 1, 0, true⟩
        ⟨2, [], DecoderResult.finalized "  ", none⟩ =
      (⟨0, "stt", 1/2, some 1, 0, true⟩, []) :=
  ⟨rfl,
   stt_empty_finalization_no_transition ⟨0, "stt", 1/2, some 1, 0, true⟩
     ⟨2, [], DecoderResult.finalized "  ", none⟩ "  " rfl rfl rfl rfl
     (by decide)⟩

/-- C4 counterexample: a downstream response whose content type declares JSON
but whose body fails to parse (`resp.json()` raises) does NOT suppress the
`core_response` broadcast — the inner `except` falls back to `resp.text` and
the event is broadcast with the raw body, contradicting the claim that a
non-JSON response body yields no `core_response` event. -/
theorem handle_stt_result_nonjson_body_counterexample :
    (handle_stt_result [] "hi" (CoreOutcome.ok 200 true false "not json")).2 =
      [Event.sttResult "hi",
       Event.coreResponse "hi" 200 (CoreResult.raw "not json")] ∧
    Event.coreResponse "hi" 200 (CoreResult.raw "not json") ∈
      (handle_stt_result [] "hi" (CoreOutcome.ok 200 true false "not json")).2 :=
  ⟨rfl, by decide⟩

/-- C4 (amended): an exception from the downstream POST (timeout, connection
error) is caught and logged, `handle_stt_result` completes, and no
`core_response` event is broadcast; whenever a response arrives — including
one with a non-JSON body, which falls back to the raw text — exactly one
`core_response` event carrying the status and the parsed-or-raw body is
broadcast. -/
theorem handle_stt_result_events (clients : List Client) (text msg : String)
    (status : ℕ) (ct jok : Bool) (body : String) :
    (handle_stt_result clients text (CoreOutcome.exc msg)).2 =
      [Event.sttResult text] ∧
    (handle_stt_result clients text (CoreOutcome.ok status ct jok body)).2 =
      [Event.sttResult text,
       Event.coreResponse text status (coreResultOf ct jok body)] := by
  constructor
  · rcases hb : broadcast clients (Event.sttResult text) with ⟨c1, d1⟩
    simp [handle_stt_result, hb]
  · rcases hb : broadcast clients (Event.sttResult text) with ⟨c1, d1⟩
    rcases hb2 : broadcast c1
        (Event.coreResponse text status (coreResultOf ct jok body)) with ⟨c2, d2⟩
    simp [handle_stt_result, hb, hb2]

/-- C5 counterexample: the message `42` is valid JSON but not an object; the
per-message handler raises (`int` has no `.get`, and only `JSONDecodeError`
is caught), the handler aborts, and the client is disconnected — contradicting
the claim that malformed valid-JSON messages are ignored silently and never
disconnect the client. -/
theorem handle_message_nonobject_counterexample :
    handle_message true 1 ["m"] (some (JsonVal.num 42)) =
      MsgOutcome.raised "AttributeError" ∧
    handle_client_msgs true 1 ["m"] [some (JsonVal.num 42)] = ([], true) ∧
    handle_message true 1 ["m"] (some (JsonVal.num 42)) ≠ MsgOutcome.silent :=
  ⟨rfl, rfl, by decide⟩

/-- C5 (amended): a message that is not valid JSON is ignored silently; a
valid JSON object is never fatal — `ping` is answered with `pong`, `status`
with the status reply, anything else ignored silently; but a valid JSON
message that is not an object raises an uncaught `AttributeError`, aborting
the handler and disconnecting the client. -/
theorem handle_message_protocol (running : Bool) (n : ℕ)
    (models : List String) (fields : List (String × JsonVal)) (v : JsonVal)
    (msgs : List (Option JsonVal)) :
    handle_message running n models none = MsgOutcome.silent ∧
    (lookupField "type" fields = some (JsonVal.str "ping") →
      handle_message running n models (some (JsonVal.obj fields)) =
        MsgOutcome.reply Reply.pong) ∧
    (lookupField "type" fields = some (JsonVal.str "status") →
      handle_message running n models (some (JsonVal.obj fields)) =
        MsgOutcome.reply (Reply.statusReply running n models)) ∧
    (∀ e, handle_message running n models (some (JsonVal.obj fields)) ≠
      MsgOutcome.raised e) ∧
    (v.isObj = false →
      handle_message running n models (some v) =
        MsgOutcome.raised "AttributeError" ∧
      handle_client_msgs running n models (some v :: msgs) = ([], true)) := by
  refine ⟨rfl, ?_, ?_, ?_, ?_⟩
  · intro h
    simp [handle_message, h]
  · intro h
    simp [handle_message, h]
  · intro e
    simp only [handle_message]
    split <;> simp
  · intro hv
    cases v with
    | obj f2 => simp [JsonVal.isObj] at hv
    | arr elems => exact ⟨rfl, rfl⟩
    | str s2 => exact ⟨rfl, rfl⟩
    | num n2 => exact ⟨rfl, rfl⟩
    | jbool b2 => exact ⟨rfl, rfl⟩
    | null => exact ⟨rfl, rfl⟩

/-- Witness for C5 (amended): a ping object is answered with pong; the
non-object message `42` raises and disconnects. -/
theorem handle_message_protocol_witness :
    handle_message true 2 ["hey_yumi"] none = MsgOutcome.silent ∧
    handle_message true 2 ["hey_yumi"]
        (some (JsonVal.obj [("type", JsonVal.str "ping")])) =
      MsgOutcome.reply Reply.pong ∧
    handle_message true 2 ["hey_yumi"] (some (JsonVal.num 42)) =
      MsgOutcome.raised "AttributeError" ∧
    handle_client_msgs true 2 ["hey_yumi"] [some (JsonVal.num 42)] =
      ([], true) :=
  ⟨(handle_message_protocol true 2 ["hey_yumi"] [("type", JsonVal.str "ping")]
      (JsonVal.num 42) []).1,
   (handle_message_protocol true 2 ["hey_yumi"] [("type", JsonVal.str "ping")]
      (JsonVal.num 42) []).2.1 rfl,
   ((handle_message_protocol true 2 ["hey_yumi"] [("type", JsonVal.str "ping")]
      (JsonVal.num 42) []).2.2.2.2 rfl).1,
   ((handle_message_protocol true 2 ["hey_yumi"] [("type", JsonVal.str "ping")]
      (JsonVal.num 42) []).2.2.2.2 rfl).2⟩

/-- C6 counterexample: when the wake-word model loads but the Vosk
speech-decoder model fails to load, `init_model` is NOT fatal — the exception
is caught, `vosk_model` is set to None and the server starts anyway,
contradicting the claim that a speech-decoder load failure is fatal at
startup. -/
theorem init_model_vosk_failure_counterexample :
    init_model ⟨true, false⟩ = InitModelResult.started false ∧
    (init_model ⟨true, false⟩).isFatal = false :=
  ⟨rfl, rfl⟩

/-- C6 (amended): a wake-word (OpenWakeWord) model load failure is fatal —
the exception propagates out of `init_model` before the pipeline starts — but
a Vosk speech-decoder load failure is caught and logged and the server runs
on with `vosk_model = None`, in which state the stt branch of the audio loop
is silently a no-op (degraded recognition). -/
theorem init_model_fatal_iff (env : ModelLoadEnv) :
    ((init_model env).isFatal = true ↔ env.owwLoadOk = false) ∧
    (init_model env = InitModelResult.started false ↔
      (env.owwLoadOk = true ∧ env.voskLoadOk = false)) ∧
    (∀ s f, s.voskLoaded = false → s.mode = "stt" → f.readFails = none →
      audioLoopStep s f = (s, [])) := by
  obtain ⟨o, v⟩ := env
  refine ⟨?_, ?_, ?_⟩
  · cases o <;> cases v <;> simp [init_model, InitModelResult.isFatal]
  · cases o <;> cases v <;> simp [init_model]
  · intro s f hv hm hr
    simp [audioLoopStep, processFrame, hr, hm, hv]

/-- Witness for C6 (amended): a wake-word load failure is fatal, and a server
running without a Vosk model does nothing in `"stt"` mode. -/
theorem init_model_fatal_iff_witness :
    ((init_model ⟨false, true⟩).isFatal = true ↔
      (⟨false, true⟩ : ModelLoadEnv).owwLoadOk = false) ∧
    audioLoopStep ⟨0, "stt", 1/2, none, 0, false⟩
        ⟨1, [], DecoderResult.finalized "x", none⟩ =
      (⟨0, "stt", 1/2, none, 0, false⟩, []) :=
  ⟨(init_model_fatal_iff ⟨false, true⟩).1,
   (init_model_fatal_iff ⟨false, true⟩).2.2 ⟨0, "stt", 1/2, none, 0, false⟩
     ⟨1, [], DecoderResult.finalized "x", none⟩ rfl rfl rfl⟩

end Yumi
